import Mathlib

/-!
Verification of the SentimentDNA core: the regime state machine, the
sentiment generator, the trail buffer, the flow-field diagnostics, the
backend-response adapter and the cross-asset correlation utilities, as
implemented in `src/data/mockStream.ts`, `src/hooks/useCrossAssetCorrelation.ts`
and the flow/phase-portrait components.

Numeric convention: exact-arithmetic code (the transition table, the trail
buffer, the adapter) is embedded over ℚ so that concrete instances are
decidable; code that calls `Math.sin` / `Math.sqrt` (the generator, the
Pearson correlation, the field diagnostics) is embedded over ℝ.
-/

namespace SentimentDNA

/-- Market regimes, from `types/sentiment`:
`type Regime = 'calm' | 'trending' | 'volatile' | 'liquidation'`. -/
inductive Regime where
  | calm
  | trending
  | volatile
  | liquidation
deriving DecidableEq, Repr

open Regime

/-- The four regimes in the key order of the JS object literals
(`Object.entries` preserves insertion order). -/
def regimeOrder : List Regime := [calm, trending, volatile, liquidation]

/-- The hard-coded `regimeTransitions` table of `mockStream.ts` (lines 184-189),
one association row per current regime, in object-literal key order. -/
def regimeTransitions : Regime → List (Regime × ℚ)
  | calm => [(calm, 92/100), (trending, 5/100), (volatile, 25/1000), (liquidation, 5/1000)]
  | trending => [(calm, 10/100), (trending, 80/100), (volatile, 8/100), (liquidation, 2/100)]
  | volatile => [(calm, 5/100), (trending, 15/100), (volatile, 70/100), (liquidation, 10/100)]
  | liquidation => [(calm, 2/100), (trending, 8/100), (volatile, 30/100), (liquidation, 60/100)]

/-- Sum of one row of a transition table. -/
def rowSum (table : Regime → List (Regime × ℚ)) (r : Regime) : ℚ :=
  ((table r).map Prod.snd).sum

open Classical in
/-- The cumulative walk inside `transitionRegime` (mockStream.ts lines 196-201):
starting from a running total, return the first row entry whose cumulative
probability strictly exceeds `rand`; `none` when the row is exhausted. -/
noncomputable def cumulativeWalk (rand : ℝ) : ℝ → List (Regime × ℚ) → Option Regime
  | _, [] => none
  | cum, (reg, p) :: rest =>
      if rand < cum + (p : ℝ) then some reg else cumulativeWalk rand (cum + (p : ℝ)) rest

/-- `transitionRegime` from `mockStream.ts` (lines 191-204): walk the current
regime's row cumulatively against `rand = Math.random()`; the `for` loop's
fall-through returns `current` unchanged. -/
noncomputable def transitionRegime (current : Regime) (rand : ℝ) : Regime :=
  (cumulativeWalk rand 0 (regimeTransitions current)).getD current

open Classical in
/-- Walk written from the spec's words: return the first state whose cumulative
probability exceeds `u`, with the LAST state of the row absorbing any residual
rounding error. Compared against `transitionRegime` below. -/
noncomputable def specWalk (u : ℝ) : ℝ → List (Regime × ℚ) → Option Regime
  | _, [] => none
  | _, [(reg, _)] => some reg
  | cum, (reg, p) :: rest =>
      if u < cum + (p : ℝ) then some reg else specWalk u (cum + (p : ℝ)) rest

/-- The spec-described sampling: first state of the row whose cumulative
probability exceeds `u`, last state absorbing the residual. -/
noncomputable def specTransition (current : Regime) (u : ℝ) : Regime :=
  (specWalk u 0 (regimeTransitions current)).getD current

open Classical in
/-- The dwell/regime update at the head of `generateReading`
(mockStream.ts lines 230-235): decrement `regimeStability`; when it has
dropped to `≤ 0`, transition the regime and redraw the stability counter as
`50 + Math.floor(rand2 * 100)`; otherwise keep the regime and the decremented
counter. Returns (new regime, new stability counter). -/
noncomputable def regimeStep (current : Regime) (regimeStability : ℤ) (rand rand2 : ℝ) :
    Regime × ℤ :=
  let s := regimeStability - 1
  if s ≤ 0 then (transitionRegime current rand, 50 + ⌊rand2 * 100⌋) else (current, s)

/-- Row-stochasticity check written from the spec: every row's sum lies in
`[1-ε, 1+ε]`. -/
def rowStochastic (table : Regime → List (Regime × ℚ)) (eps : ℚ) : Bool :=
  regimeOrder.all fun r =>
    decide (1 - eps ≤ rowSum table r) && decide (rowSum table r ≤ 1 + eps)

/-- Modelled from the spec: the RegimeStateMachine constructor.  The source
under `src/` has no constructor at all - `regimeTransitions` is a hard-coded
module constant - so the construction-time validation described in §4.1/§7 of
the spec ("constructing with a non-row-stochastic matrix is a fatal
configuration error raised at construction, not at use") is modelled here:
the table is accepted exactly when every row sum lies within `[1-ε, 1+ε]`. -/
def mkRegimeStateMachine (table : Regime → List (Regime × ℚ)) (eps : ℚ) :
    Except String (Regime → List (Regime × ℚ)) :=
  if rowStochastic table eps then Except.ok table
  else Except.error "transition matrix is not row-stochastic"

/-- A point of the phase-portrait trail, from `types/sentiment`:
`{ x: score, y: momentum, timestamp, regime, alpha }`.  Coordinates are kept
in ℚ so that concrete trail computations are decidable. -/
structure TrailPoint where
  x : ℚ
  y : ℚ
  timestamp : ℤ
  regime : Regime
  alpha : ℚ
deriving DecidableEq, Repr

/-- The capacity of the phase-portrait trail (`trailRef`), hard-coded to 300. -/
def trailCapacity : ℕ := 300

/-- The alpha-less data of a trail point (everything `push` preserves; the
alpha is recomputed after every mutation). -/
def pointData (p : TrailPoint) : ℚ × ℚ × ℤ × Regime :=
  (p.x, p.y, p.timestamp, p.regime)

/-- `slice(-300)` of the trail update effect: keep the most recent 300 points
when the length exceeds the capacity. -/
def trailSlice (l : List TrailPoint) : List TrailPoint :=
  if trailCapacity < l.length then l.drop (l.length - trailCapacity) else l

/-- The trail update effect of the phase portrait (part_008 lines 347-366):
append the new point; when the length exceeds 300 keep only the most recent
300 (`slice(-300)`); then recompute every retained point's alpha as
`(i + 1) / length`. -/
def trailPush (buf : List TrailPoint) (p : TrailPoint) : List TrailPoint :=
  (trailSlice (buf ++ [p])).enum.map fun iq =>
    { iq.2 with alpha := ((iq.1 : ℚ) + 1) / ((trailSlice (buf ++ [p])).length : ℚ) }

/-- A concrete trail point at the origin carrying timestamp `k`. -/
def trailDemoPoint (k : ℕ) : TrailPoint :=
  { x := 0, y := 0, timestamp := (k : ℤ), regime := Regime.calm, alpha := 1 }

/-- 301 concrete points with pairwise distinct timestamps 0..300. -/
def trailDemo : List TrailPoint :=
  trailDemoPoint 0 :: (List.range 300).map fun k => trailDemoPoint (k + 1)

/-- Attribution sources, from `types/sentiment`. -/
inductive AttributionSource where
  | social
  | onchain
  | microstructure
deriving DecidableEq, Repr

/-- Detected tones, from `types/sentiment`. -/
inductive DetectedTone where
  | sarcasm
  | sincere
  | hype
  | fud
deriving DecidableEq, Repr

/-- The attribution vector of a reading. -/
structure Attribution where
  social : ℝ
  onchain : ℝ
  microstructure : ℝ

/-- Signal metrics of a reading (funding rate, liquidation risk, ...). -/
structure SignalMetrics where
  fundingRate : ℝ
  liquidationRisk : ℝ
  sarcasmDetected : ℝ
  whaleMovement : ℝ

/-- Authenticity metrics of a reading.  The last field is `organic_ratio` /
`organicRatio` in the source; renamed here to `organicShare`. -/
structure AuthenticityMetrics where
  score : ℝ
  botFiltered : ℝ
  shillDetected : ℝ
  organicShare : ℝ

/-- A word-level SHAP highlight. -/
structure SHAPHighlight where
  word : String
  contribution : ℝ
  position : ℕ

/-- Identifier of a narrative event.  The backend supplies a ready-made string;
the mock generator builds the JS string
`evt-(Date.now())-(Math.random().toString(36).slice(2,8))`, whose underlying
data (clock value and random draw) the embedding keeps unrendered. -/
inductive EventId where
  | backend (s : String)
  | generated (now : ℤ) (draw : ℝ)

/-- A narrative event, from `types/sentiment`.  Fields that are optional in
the TS type (the backend may omit them) are `Option`s. -/
structure NarrativeEvent where
  id : EventId
  summary : String
  source : AttributionSource
  impact : ℝ
  entities : Option (List String)
  shapHighlights : Option (List SHAPHighlight)
  nlpConfidence : Option ℝ
  detectedTone : Option DetectedTone

/-- The core sentiment reading, from `types/sentiment`. -/
structure SentimentReading where
  timestamp : ℤ
  score : ℝ
  momentum : ℝ
  confidence : ℝ
  regime : Regime
  regimeProbability : Option ℝ
  attribution : Attribution
  signals : Option SignalMetrics
  authenticity : Option AuthenticityMetrics
  narrative : Option NarrativeEvent
  model : Option String

open Classical in
/-- JS `Math.sign`: 1 for positive, -1 for negative, 0 at zero. -/
noncomputable def mathSign (x : ℝ) : ℝ :=
  if 0 < x then 1 else if x < 0 then -1 else 0

open Classical in
/-- The JS clamp pattern `Math.max(lo, Math.min(hi, x))`. -/
noncomputable def clampR (lo hi x : ℝ) : ℝ := max lo (min hi x)

/-- The flow-field diagnostics record of StreamlineFlow. -/
structure FieldMetrics where
  divergence : ℝ
  curl : ℝ
  magnitude : ℝ

/-- `calculatedMetrics` of StreamlineFlow (part_009 lines 54-68): divergence,
curl and magnitude of the flow derived from one reading. -/
noncomputable def calculatedMetrics (r : SentimentReading) : FieldMetrics :=
  { divergence := r.score * r.momentum * 2
    curl := |r.attribution.social - r.attribution.onchain| * mathSign r.score *
      (1 - r.confidence)
    magnitude := Real.sqrt (r.score ^ 2 + r.momentum ^ 2) }

/-- The spec's `scaleA` for the divergence diagnostic (the source uses 2). -/
def specScaleA : ℝ := 2

/-- The spec's `scaleB` for the curl diagnostic (the source uses 1). -/
def specScaleB : ℝ := 1

/-- The divergence formula as the spec words it: score x momentum x scaleA. -/
noncomputable def specDivergence (r : SentimentReading) : ℝ :=
  r.score * r.momentum * specScaleA

/-- The curl formula as the spec words it. -/
noncomputable def specCurl (r : SentimentReading) : ℝ :=
  |r.attribution.social - r.attribution.onchain| * mathSign r.score *
    (1 - r.confidence) * specScaleB

/-- The magnitude formula as the spec words it. -/
noncomputable def specMagnitude (r : SentimentReading) : ℝ :=
  Real.sqrt (r.score ^ 2 + r.momentum ^ 2)

/-- Numerator of the Pearson correlation
(`useCrossAssetCorrelation.ts` lines 102): `n*sumXY - sumX*sumY`. -/
noncomputable def pearsonNumerator (x y : List ℝ) : ℝ :=
  (x.length : ℝ) * (List.zipWith (fun a b => a * b) x y).sum - x.sum * y.sum

/-- Denominator of the Pearson correlation (line 103):
`sqrt((n*sumX2 - sumX^2) * (n*sumY2 - sumY^2))`. -/
noncomputable def pearsonDenominator (x y : List ℝ) : ℝ :=
  Real.sqrt (((x.length : ℝ) * (x.map fun a => a * a).sum - x.sum ^ 2) *
    ((x.length : ℝ) * (y.map fun a => a * a).sum - y.sum ^ 2))

open Classical in
/-- `calculatePearsonCorrelation` from `useCrossAssetCorrelation.ts`
(lines 92-107): 0 on length mismatch, fewer than 2 samples, or zero
denominator; otherwise the normalized covariance. -/
noncomputable def calculatePearsonCorrelation (x y : List ℝ) : ℝ :=
  if x.length ≠ y.length ∨ x.length < 2 then 0
  else if pearsonDenominator x y = 0 then 0
  else pearsonNumerator x y / pearsonDenominator x y

/-- The tracked asset symbols, from `data/assets.ts`. -/
def ASSETS : List String :=
  ["BTC", "ETH", "SOL", "DOGE", "XRP", "ADA", "AVAX", "MATIC", "LINK", "DOT"]

/-- `BASE_CORRELATIONS` from `useCrossAssetCorrelation.ts` (lines 15-26). -/
def BASE_CORRELATIONS : List (String × List (String × ℚ)) :=
  [ ("BTC", [("ETH", 85/100), ("SOL", 75/100), ("DOGE", 55/100), ("XRP", 60/100),
      ("ADA", 70/100), ("AVAX", 72/100), ("MATIC", 68/100), ("LINK", 65/100), ("DOT", 72/100)]),
    ("ETH", [("BTC", 85/100), ("SOL", 80/100), ("DOGE", 50/100), ("XRP", 55/100),
      ("ADA", 75/100), ("AVAX", 78/100), ("MATIC", 82/100), ("LINK", 75/100), ("DOT", 70/100)]),
    ("SOL", [("BTC", 75/100), ("ETH", 80/100), ("DOGE", 45/100), ("XRP", 50/100),
      ("ADA", 65/100), ("AVAX", 70/100), ("MATIC", 72/100), ("LINK", 60/100), ("DOT", 65/100)]),
    ("DOGE", [("BTC", 55/100), ("ETH", 50/100), ("SOL", 45/100), ("XRP", 40/100),
      ("ADA", 45/100), ("AVAX", 42/100), ("MATIC", 48/100), ("LINK", 35/100), ("DOT", 40/100)]),
    ("XRP", [("BTC", 60/100), ("ETH", 55/100), ("SOL", 50/100), ("DOGE", 40/100),
      ("ADA", 65/100), ("AVAX", 55/100), ("MATIC", 50/100), ("LINK", 45/100), ("DOT", 60/100)]),
    ("ADA", [("BTC", 70/100), ("ETH", 75/100), ("SOL", 65/100), ("DOGE", 45/100),
      ("XRP", 65/100), ("AVAX", 68/100), ("MATIC", 65/100), ("LINK", 60/100), ("DOT", 75/100)]),
    ("AVAX", [("BTC", 72/100), ("ETH", 78/100), ("SOL", 70/100), ("DOGE", 42/100),
      ("XRP", 55/100), ("ADA", 68/100), ("MATIC", 70/100), ("LINK", 62/100), ("DOT", 65/100)]),
    ("MATIC", [("BTC", 68/100), ("ETH", 82/100), ("SOL", 72/100), ("DOGE", 48/100),
      ("XRP", 50/100), ("ADA", 65/100), ("AVAX", 70/100), ("LINK", 65/100), ("DOT", 60/100)]),
    ("LINK", [("BTC", 65/100), ("ETH", 75/100), ("SOL", 60/100), ("DOGE", 35/100),
      ("XRP", 45/100), ("ADA", 60/100), ("AVAX", 62/100), ("MATIC", 65/100), ("DOT", 55/100)]),
    ("DOT", [("BTC", 72/100), ("ETH", 70/100), ("SOL", 65/100), ("DOGE", 40/100),
      ("XRP", 60/100), ("ADA", 75/100), ("AVAX", 65/100), ("MATIC", 60/100), ("LINK", 55/100)]) ]

/-- `BASE_CORRELATIONS[active]?.[other] ?? 0.5`. -/
def baseCorrelationLookup (active other : String) : ℚ :=
  match BASE_CORRELATIONS.lookup active with
  | none => 1/2
  | some row => (row.lookup other).getD (1/2)

/-- JS `sym.charCodeAt(i)` for the short uppercase asset symbols. -/
def charCodeAt (sym : String) (i : ℕ) : ℕ :=
  (sym.toList.getD i (Char.ofNat 0)).toNat

/-- The result row of the correlation hook, from `types/sentiment`
(`AssetCorrelation`).  The `divergence` boolean is a comparison of reals, so
it is carried as a `Prop` in the embedding. -/
structure AssetCorrelation where
  symbol : String
  sentimentScore : ℝ
  correlation : ℝ
  divergence : Prop

/-- One row of the hook's result (`useCrossAssetCorrelation.ts` lines 46-80):
base correlation plus time-varying noise, expected/actual sentiment, and the
divergence heuristic. -/
noncomputable def correlationEntry (activeSymbol : String) (currentScore now : ℝ)
    (sym : String) : AssetCorrelation :=
  let baseCorrelation : ℝ := (baseCorrelationLookup activeSymbol sym : ℝ)
  let noise := Real.sin (now / 10000 + (charCodeAt sym 0 : ℝ)) * 0.1
  let correlation := clampR (-1) 1 (baseCorrelation + noise)
  let expectedSentiment := currentScore * correlation
  let independentNoise := Real.cos (now / 8000 + (charCodeAt sym 1 : ℝ)) * 0.3
  let actualSentiment := clampR (-1) 1 (expectedSentiment + independentNoise)
  { symbol := sym
    sentimentScore := actualSentiment
    correlation := correlation
    divergence := correlation > 0.3 ∧ |currentScore| > 0.15 ∧ |actualSentiment| > 0.15 ∧
      mathSign currentScore ≠ mathSign actualSentiment }

open Classical in
/-- The correlation computation of the `useCrossAssetCorrelation` hook
(lines 35-80): with fewer than 10 history points the result is empty;
otherwise one row per tracked asset other than the active symbol, driven by
the latest score (`history[history.length-1]?.score ?? 0`) and the wall
clock `now`. -/
noncomputable def crossAssetCorrelations (activeSymbol : String)
    (history : List SentimentReading) (now : ℝ) : List AssetCorrelation :=
  if history.length < 10 then []
  else
    (ASSETS.filter fun s => s ≠ activeSymbol).map
      (correlationEntry activeSymbol
        ((history.getLast?.map SentimentReading.score).getD 0) now)

/-- A backend contributing event (`BackendSentimentResponse.contributing_events`
entries), snake_case fields camel-cased; the fields the adapter ignores
(timestamp, symbol_impacts) are omitted. -/
structure BackendEvent where
  id : String
  source : AttributionSource
  summary : String
  impact : ℝ
  entities : Option (List String)
  shapHighlights : Option (List SHAPHighlight)
  nlpConfidence : Option ℝ
  detectedTone : Option DetectedTone

/-- Backend `signals` block (all fields optional). -/
structure BackendSignals where
  fundingRate : Option ℝ
  liquidationRisk : Option ℝ
  sarcasmDetected : Option ℝ
  whaleMovement : Option ℝ

/-- Backend `authenticity` block (all fields optional; `organic_ratio` is
`organicShare` here). -/
structure BackendAuthenticity where
  score : Option ℝ
  botFiltered : Option ℝ
  shillDetected : Option ℝ
  organicShare : Option ℝ

/-- The backend response consumed by `adaptBackendResponse`
(mockStream.ts part 2, lines 428-506).  Only the fields the adapter reads
are modelled; `timestamp` is taken already numeric (the string branch is
`Date` parsing).  `contributing_events` absent and empty behave alike in the
adapter, so it is a plain list. -/
structure BackendResponse where
  symbol : String
  timestamp : ℤ
  score : ℝ
  confidence : ℝ
  attributionSocial : ℝ
  attributionOnchain : ℝ
  attributionMicrostructure : ℝ
  momentumShort : Option ℝ
  momentumLong : Option ℝ
  regime : String
  regimeProbability : Option ℝ
  signals : Option BackendSignals
  authenticity : Option BackendAuthenticity
  model : Option String
  contributingEvents : List BackendEvent

/-- The explicit regime lookup table of the adapter (lines 518-523). -/
def regimeMap : List (String × Regime) :=
  [("calm", Regime.calm), ("trending", Regime.trending),
    ("volatile", Regime.volatile), ("liquidation", Regime.liquidation)]

/-- JS `.toLowerCase()`, modelled character-wise so that concrete lookups
reduce in the kernel. -/
def lowerString (s : String) : String :=
  String.mk (s.data.map Char.toLower)

/-- `regimeMap[backend.regime.toLowerCase()] || 'calm'` (line 524). -/
def lookupRegime (s : String) : Regime :=
  (regimeMap.lookup (lowerString s)).getD Regime.calm

/-- `adaptNarrativeEvent` (lines 582-600): field-by-field conversion of a
backend event; the id string is carried through. -/
def adaptNarrativeEvent (e : BackendEvent) : NarrativeEvent :=
  { id := EventId.backend e.id
    summary := e.summary
    source := e.source
    impact := e.impact
    entities := e.entities
    shapHighlights := e.shapHighlights
    nlpConfidence := e.nlpConfidence
    detectedTone := e.detectedTone }

open Classical in
/-- `adaptBackendResponse` (lines 511-577): clamp score/confidence, map the
regime label through the lookup table defaulting to calm, choose momentum
(short preferred, then long, then 0), renormalize attribution by the raw sum
(`|| 1` guarding a zero sum), default the optional signal/authenticity
fields, and take the first contributing event as the narrative. -/
noncomputable def adaptBackendResponse (b : BackendResponse) : SentimentReading :=
  let total0 := b.attributionSocial + b.attributionOnchain + b.attributionMicrostructure
  let total := if total0 = 0 then 1 else total0
  { timestamp := b.timestamp
    score := clampR (-1) 1 b.score
    momentum :=
      match b.momentumShort with
      | some m => m
      | none => b.momentumLong.getD 0
    confidence := clampR 0 1 b.confidence
    regime := lookupRegime b.regime
    regimeProbability := b.regimeProbability
    attribution :=
      { social := b.attributionSocial / total
        onchain := b.attributionOnchain / total
        microstructure := b.attributionMicrostructure / total }
    signals := b.signals.map fun s =>
      { fundingRate := s.fundingRate.getD 0
        liquidationRisk := s.liquidationRisk.getD 0
        sarcasmDetected := s.sarcasmDetected.getD 0
        whaleMovement := s.whaleMovement.getD 0 }
    authenticity := b.authenticity.map fun a =>
      { score := a.score.getD 0.8
        botFiltered := a.botFiltered.getD 0
        shillDetected := a.shillDetected.getD 0
        organicShare := a.organicShare.getD 0.9 }
    narrative := b.contributingEvents.head?.map adaptNarrativeEvent
    model := b.model }

/-- A concrete backend payload: Scenario B attribution {2, 1, 1}, regime
"calm", everything optional absent. -/
noncomputable def demoBackend : BackendResponse :=
  { symbol := "BTC"
    timestamp := 0
    score := 0
    confidence := 1
    attributionSocial := 2
    attributionOnchain := 1
    attributionMicrostructure := 1
    momentumShort := none
    momentumLong := none
    regime := "calm"
    regimeProbability := none
    signals := none
    authenticity := none
    model := none
    contributingEvents := [] }

/-- The mutable module-level simulation state of `mockStream.ts`
(lines 177-181), made explicit: accumulated simulation time, previous score,
dwell counter (`regimeStability`) and current regime. -/
structure GenState where
  simulationTime : ℝ
  previousScore : ℝ
  regimeStability : ℤ
  currentRegime : Regime

/-- The five module-level `createNoise2D()` instances (lines 17-22), injected
as explicit 2-argument noise functions. -/
structure NoiseFns where
  scoreNoise : ℝ → ℝ → ℝ
  momentumNoise : ℝ → ℝ → ℝ
  socialNoise : ℝ → ℝ → ℝ
  onchainNoise : ℝ → ℝ → ℝ
  microNoise : ℝ → ℝ → ℝ

/-- `volatilityMultiplier` (lines 238-243). -/
noncomputable def volatilityMultiplier : Regime → ℝ
  | Regime.calm => 0.3
  | Regime.trending => 0.5
  | Regime.volatile => 1.2
  | Regime.liquidation => 2.0

/-- Keyword polarity tags of the narrative templates. -/
inductive KeywordSentiment where
  | positive
  | negative
  | neutral
deriving DecidableEq, Repr

/-- A narrative template (lines 25-33). -/
structure NarrativeTemplate where
  summary : String
  source : AttributionSource
  impact : ℝ
  entities : List String
  baseTone : DetectedTone
  keyWords : List (String × KeywordSentiment)

/-- The twelve `narrativeTemplates` (lines 35-132). -/
noncomputable def narrativeTemplates : List NarrativeTemplate :=
  [ { summary := "Large whale accumulation detected on Binance"
      source := AttributionSource.onchain
      impact := 0.3
      entities := ["Binance", "Whale"]
      baseTone := DetectedTone.sincere
      keyWords := [("whale", KeywordSentiment.positive), ("accumulation", KeywordSentiment.positive)] },
    { summary := "Elon Musk cryptic tweet sparks speculation"
      source := AttributionSource.social
      impact := 0.4
      entities := ["Elon Musk", "Twitter"]
      baseTone := DetectedTone.hype
      keyWords := [("Elon", KeywordSentiment.positive), ("cryptic", KeywordSentiment.neutral),
        ("sparks", KeywordSentiment.positive)] },
    { summary := "Unusual options activity suggests institutional movement"
      source := AttributionSource.microstructure
      impact := 0.25
      entities := ["CME", "Options"]
      baseTone := DetectedTone.sincere
      keyWords := [("institutional", KeywordSentiment.positive), ("Unusual", KeywordSentiment.neutral)] },
    { summary := "Reddit WSB sentiment shifting bullish"
      source := AttributionSource.social
      impact := 0.2
      entities := ["Reddit", "WSB"]
      baseTone := DetectedTone.hype
      keyWords := [("bullish", KeywordSentiment.positive), ("WSB", KeywordSentiment.neutral)] },
    { summary := "$50M USDT moved to exchange - potential sell pressure"
      source := AttributionSource.onchain
      impact := -0.35
      entities := ["Tether", "Exchange"]
      baseTone := DetectedTone.fud
      keyWords := [("sell", KeywordSentiment.negative), ("pressure", KeywordSentiment.negative),
        ("$50M", KeywordSentiment.negative)] },
    { summary := "High-frequency trading spike detected"
      source := AttributionSource.microstructure
      impact := 0.15
      entities := ["HFT", "Algo"]
      baseTone := DetectedTone.sincere
      keyWords := [("spike", KeywordSentiment.neutral), ("detected", KeywordSentiment.neutral)] },
    { summary := "Major influencer capitulated publicly - \"I was wrong about BTC\""
      source := AttributionSource.social
      impact := -0.45
      entities := ["Influencer"]
      baseTone := DetectedTone.sarcasm
      keyWords := [("capitulated", KeywordSentiment.negative), ("wrong", KeywordSentiment.negative)] },
    { summary := "Long liquidation cascade beginning"
      source := AttributionSource.microstructure
      impact := -0.6
      entities := ["Longs", "Cascade"]
      baseTone := DetectedTone.fud
      keyWords := [("liquidation", KeywordSentiment.negative), ("cascade", KeywordSentiment.negative)] },
    { summary := "Dormant wallet from 2017 activated - OG whale awakens"
      source := AttributionSource.onchain
      impact := -0.2
      entities := ["OG Whale"]
      baseTone := DetectedTone.sincere
      keyWords := [("Dormant", KeywordSentiment.negative), ("awakens", KeywordSentiment.neutral)] },
    { summary := "Funding rate extreme positive - squeeze risk elevated"
      source := AttributionSource.microstructure
      impact := -0.3
      entities := ["Funding", "Perps"]
      baseTone := DetectedTone.fud
      keyWords := [("extreme", KeywordSentiment.negative), ("squeeze", KeywordSentiment.negative),
        ("risk", KeywordSentiment.negative)] },
    { summary := "Great another dip, thanks for the discount!"
      source := AttributionSource.social
      impact := 0.1
      entities := ["Community"]
      baseTone := DetectedTone.sarcasm
      keyWords := [("Great", KeywordSentiment.negative), ("dip", KeywordSentiment.negative),
        ("discount", KeywordSentiment.positive)] },
    { summary := "WAGMI! Community sentiment at all-time high"
      source := AttributionSource.social
      impact := 0.5
      entities := ["Community", "Twitter"]
      baseTone := DetectedTone.hype
      keyWords := [("WAGMI", KeywordSentiment.positive), ("all-time", KeywordSentiment.positive),
        ("high", KeywordSentiment.positive)] } ]

/-- Characters kept by `word.replace(/[^a-zA-Z0-9$]/g, ...)` (line 140). -/
def keepChar (c : Char) : Bool := c.isAlphanum || c == '$'

/-- The cleaned word of a summary token. -/
def cleanWord (w : String) : String := String.mk (w.data.filter keepChar)

/-- `needle` occurs at the front of `hay`. -/
def seqStartsWith : List Char → List Char → Bool
  | _, [] => true
  | [], _ :: _ => false
  | a :: as, b :: bs => a == b && seqStartsWith as bs

/-- `needle` occurs contiguously anywhere in `hay` (JS `String.includes`). -/
def seqContains : List Char → List Char → Bool
  | [], needle => needle.isEmpty
  | a :: t, needle => seqStartsWith (a :: t) needle || seqContains t needle

/-- JS `a.toLowerCase().includes(b.toLowerCase())`. -/
def includesCI (a b : String) : Bool :=
  seqContains (lowerString a).data (lowerString b).data

/-- The keyword matcher of `generateSHAPHighlights` (lines 141-144):
case-insensitive substring match in either direction. -/
def matchKeyword (cw : String) (kws : List (String × KeywordSentiment)) :
    Option (String × KeywordSentiment) :=
  kws.find? fun kw => includesCI cw kw.1 || includesCI kw.1 cw

/-- `summary.split(/\s+/)` (line 136); the template summaries contain single
spaces only, where the regex split agrees with splitting on one space. -/
def splitWords (s : String) : List String := s.splitOn " "

open Classical in
/-- The token loop of `generateSHAPHighlights` (lines 139-162), threading the
index into the random stream: a keyword hit contributes
`(+-0.4 | 0) + (r-0.5)*0.2`; otherwise with probability 0.2 a small random
contribution `(r-0.5)*0.15`; otherwise the token is omitted. -/
noncomputable def shapFold (rand : ℕ → ℝ) (kws : List (String × KeywordSentiment)) :
    List (ℕ × String) → ℕ → List SHAPHighlight × ℕ
  | [], i => ([], i)
  | pw :: rest, i =>
      let cw := cleanWord pw.2
      match matchKeyword cw kws with
      | some kw =>
          let base : ℝ :=
            match kw.2 with
            | KeywordSentiment.positive => 0.4
            | KeywordSentiment.negative => -0.4
            | KeywordSentiment.neutral => 0
          let h : SHAPHighlight :=
            { word := cw, contribution := base + (rand i - 0.5) * 0.2, position := pw.1 }
          let rest' := shapFold rand kws rest (i + 1)
          (h :: rest'.1, rest'.2)
      | none =>
          if rand i < 0.2 then
            let h : SHAPHighlight :=
              { word := cw, contribution := (rand (i + 1) - 0.5) * 0.15, position := pw.1 }
            let rest' := shapFold rand kws rest (i + 2)
            (h :: rest'.1, rest'.2)
          else shapFold rand kws rest (i + 1)

/-- `generateSHAPHighlights` (lines 135-165). -/
noncomputable def generateSHAPHighlights (rand : ℕ → ℝ) (i : ℕ) (summary : String)
    (kws : List (String × KeywordSentiment)) : List SHAPHighlight × ℕ :=
  shapFold rand kws (splitWords summary).enum i

open Classical in
/-- `pickTone` (lines 168-175): 80 percent the base tone, otherwise derived
from the impact (large positive: hype, large negative: fud, else a coin flip
between sincere and sarcasm). -/
noncomputable def pickTone (rand : ℕ → ℝ) (i : ℕ) (baseTone : DetectedTone) (impact : ℝ) :
    DetectedTone × ℕ :=
  if rand i < 0.8 then (baseTone, i + 1)
  else if impact > 0.3 then (DetectedTone.hype, i + 1)
  else if impact < -0.3 then (DetectedTone.fud, i + 1)
  else if rand (i + 1) > 0.5 then (DetectedTone.sincere, i + 2)
  else (DetectedTone.sarcasm, i + 2)

/-- Fallback template for an out-of-range index (unreachable for draws in
[0,1)). -/
noncomputable def emptyTemplate : NarrativeTemplate :=
  { summary := ""
    source := AttributionSource.social
    impact := 0
    entities := []
    baseTone := DetectedTone.sincere
    keyWords := [] }

open Classical in
/-- `generateNarrativeEvent` (lines 206-225): fires with probability 5
percent; picks a template by `Math.floor(r * templates.length)`; builds SHAP
highlights and tone; the id keeps the clock value and the raw random draw
that JS renders as `evt-...`. -/
noncomputable def generateNarrativeEvent (rand : ℕ → ℝ) (now : ℤ) (i : ℕ) :
    Option NarrativeEvent × ℕ :=
  if rand i > 0.05 then (none, i + 1)
  else
    let tIdx := (⌊rand (i + 1) * (narrativeTemplates.length : ℝ)⌋).toNat
    let template := narrativeTemplates.getD tIdx emptyTemplate
    let shap := generateSHAPHighlights rand (i + 2) template.summary template.keyWords
    let tone := pickTone rand shap.2 template.baseTone template.impact
    let ev : NarrativeEvent :=
      { id := EventId.generated now (rand tone.2)
        summary := template.summary
        source := template.source
        impact := template.impact
        entities := some template.entities
        shapHighlights := some shap.1
        nlpConfidence := some (0.7 + rand (tone.2 + 1) * 0.25)
        detectedTone := some tone.1 }
    (some ev, tone.2 + 2)

/-- The pre-clamp score dynamics of `generateReading` (lines 247-254):
previous score, plus noise scaled by the regime volatility, mean reversion
and the trending-regime sinusoid. -/
noncomputable def genScoreRaw (nf : NoiseFns) (prevScore t : ℝ) (reg : Regime) : ℝ :=
  let vol := volatilityMultiplier reg
  let noiseVal := nf.scoreNoise (t * 0.5) 0 * vol
  let meanReversion := -prevScore * 0.02
  let trendComponent := if reg = Regime.trending then Real.sin (t * 0.2) * 0.3 else 0
  prevScore + noiseVal * 0.1 + meanReversion + trendComponent * 0.01

/-- The clamped score (line 255). -/
noncomputable def genScore (nf : NoiseFns) (prevScore t : ℝ) (reg : Regime) : ℝ :=
  clampR (-1) 1 (genScoreRaw nf prevScore t reg)

/-- `rawSocial` (line 262). -/
noncomputable def rawSocialWeight (nf : NoiseFns) (t : ℝ) : ℝ :=
  (nf.socialNoise (t * 0.3) 100 + 1) / 2

/-- `rawOnchain` (line 263). -/
noncomputable def rawOnchainWeight (nf : NoiseFns) (t : ℝ) : ℝ :=
  (nf.onchainNoise (t * 0.15) 200 + 1) / 2

/-- `rawMicro` (line 264). -/
noncomputable def rawMicroWeight (nf : NoiseFns) (t : ℝ) : ℝ :=
  (nf.microNoise (t * 0.8) 300 + 1) / 2

/-- The raw attribution total (line 267). -/
noncomputable def attributionTotal (nf : NoiseFns) (t : ℝ) : ℝ :=
  rawSocialWeight nf t + rawOnchainWeight nf t + rawMicroWeight nf t

/-- The normalized attribution (lines 268-272). -/
noncomputable def genAttribution (nf : NoiseFns) (t : ℝ) : Attribution :=
  { social := rawSocialWeight nf t / attributionTotal nf t
    onchain := rawOnchainWeight nf t / attributionTotal nf t
    microstructure := rawMicroWeight nf t / attributionTotal nf t }

/-- The confidence (lines 275-277): base minus volatility effect plus noise,
clamped to [0.1, 1]. -/
noncomputable def genConfidence (nf : NoiseFns) (t : ℝ) (reg : Regime) : ℝ :=
  max 0.1 (min 1 (0.7 - volatilityMultiplier reg * 0.3 + nf.momentumNoise (t * 0.4) 400 * 0.2))

open Classical in
/-- `generateReading` (lines 227-318) as a pure per-tick function of the
explicit state, injected noise functions, a random stream read at an index
cursor, and the clock value `now` (`Date.now()`).  Returns the reading, the
new state and the advanced random-stream cursor. -/
noncomputable def generateReading (nf : NoiseFns) (rand : ℕ → ℝ) (now : ℤ)
    (st : GenState) (i : ℕ) : SentimentReading × GenState × ℕ :=
  let t := st.simulationTime + 0.01
  let ru := regimeStep st.currentRegime st.regimeStability (rand i) (rand (i + 1))
  let i1 := if st.regimeStability - 1 ≤ 0 then i + 2 else i
  let currentRegime := ru.1
  let score := genScore nf st.previousScore t currentRegime
  let momentum := (score - st.previousScore) * 10
  let rawMicro := rawMicroWeight nf t
  let fundingRate := rawMicro * 0.05 + (if currentRegime = Regime.trending then 0.02 else 0)
  let lr1 : ℝ × ℕ := if fundingRate > 0.04 then (0.7 + rand i1 * 0.2, i1 + 1) else (0.1, i1)
  let lr2 : ℝ × ℕ :=
    if currentRegime = Regime.liquidation then (0.9 + rand lr1.2 * 0.1, lr1.2 + 1) else lr1
  let i2 := lr2.2
  let sarcasmDetected :=
    if rawSocialWeight nf t > 0.7 ∧ |momentum| < 0.2 then 0.6 + rand i2 * 0.3
    else 0.05 + rand i2 * 0.15
  let i3 := i2 + 1
  let signals : SignalMetrics :=
    { fundingRate := fundingRate
      liquidationRisk := lr2.1
      sarcasmDetected := sarcasmDetected
      whaleMovement := rawOnchainWeight nf t }
  let baseAuthenticity : ℝ :=
    if currentRegime = Regime.volatile ∨ currentRegime = Regime.liquidation then 0.5 else 0.75
  let authenticity : AuthenticityMetrics :=
    { score := min 1 (max 0.2 (baseAuthenticity + (rand i3 - 0.5) * 0.3))
      botFiltered :=
        if currentRegime = Regime.volatile then 0.15 + rand (i3 + 1) * 0.15
        else 0.05 + rand (i3 + 1) * 0.1
      shillDetected :=
        if currentRegime = Regime.volatile then 0.2 + rand (i3 + 2) * 0.2
        else 0.02 + rand (i3 + 2) * 0.08
      organicShare :=
        min 1 (max 0.5 (0.8 - (if currentRegime = Regime.volatile then 0.2 else 0) +
          (rand (i3 + 3) - 0.5) * 0.2)) }
  let i4 := i3 + 4
  let narr := generateNarrativeEvent rand now (i4 + 1)
  let reading : SentimentReading :=
    { timestamp := now
      score := score
      momentum := momentum
      confidence := genConfidence nf t currentRegime
      regime := currentRegime
      regimeProbability := some (0.7 + rand i4 * 0.25)
      attribution := genAttribution nf t
      signals := some signals
      authenticity := some authenticity
      narrative := narr.1
      model := some "CryptoBERT-Fusion-v1" }
  (reading,
    { simulationTime := t
      previousScore := score
      regimeStability := ru.2
      currentRegime := currentRegime },
    narr.2)

/-- The module-level initial state (lines 177-181): time 0, score 0,
stability 100, regime calm. -/
noncomputable def initialGenState : GenState :=
  { simulationTime := 0, previousScore := 0, regimeStability := 100,
    currentRegime := Regime.calm }

/-- Running the generator for `n` ticks: one reading per tick, threading the
state and the random cursor, consuming one clock value per tick. -/
noncomputable def runGenerator (nf : NoiseFns) (rand : ℕ → ℝ) (clock : ℕ → ℤ) :
    GenState → ℕ → ℕ → List SentimentReading
  | _, _, 0 => []
  | st, i, n + 1 =>
      let out := generateReading nf rand (clock 0) st i
      out.1 :: runGenerator nf rand (fun k => clock (k + 1)) out.2.1 out.2.2 n

/-- The all-zero noise functions, a concrete configuration. -/
noncomputable def zeroNoise : NoiseFns :=
  { scoreNoise := fun _ _ => 0
    momentumNoise := fun _ _ => 0
    socialNoise := fun _ _ => 0
    onchainNoise := fun _ _ => 0
    microNoise := fun _ _ => 0 }

/-- C5: For every reading, the StreamlineFlow diagnostics equal the spec's
formulas: divergence = score x momentum x scaleA (with scaleA = 2),
curl = |social - onchain| x sign(score) x (1 - confidence) x scaleB (with
scaleB = 1), magnitude = sqrt(score^2 + momentum^2). -/
theorem calculatedMetrics_C5 (r : SentimentReading) :
    calculatedMetrics r =
      { divergence := specDivergence r
        curl := specCurl r
        magnitude := specMagnitude r } := by
  simp only [calculatedMetrics, specDivergence, specCurl, specMagnitude, specScaleA,
    specScaleB, mul_one]

/-- sum of the pointwise negation of a list -/
theorem sum_map_negate (l : List ℝ) : (l.map fun a => -a).sum = -l.sum := by
  induction l with
  | nil => simp
  | cons a t ih => simp [ih]; ring

/-- zipping a list with itself multiplicatively squares it -/
theorem zipWith_mul_self (l : List ℝ) :
    List.zipWith (fun a b => a * b) l l = l.map fun a => a * a := by
  induction l with
  | nil => rfl
  | cons a t ih => simp [ih]

/-- zipping a list with its negation negates the squares -/
theorem zipWith_mul_negate (l : List ℝ) :
    List.zipWith (fun a b => a * b) l (l.map fun a => -a) = l.map fun a => -(a * a) := by
  induction l with
  | nil => rfl
  | cons a t ih => simp [ih]

/-- squares are insensitive to negation -/
theorem map_sq_negate (l : List ℝ) :
    ((l.map fun a => -a).map fun a => a * a) = l.map fun a => a * a := by
  rw [List.map_map]
  congr 1
  funext a
  simp [Function.comp]

/-- a constant list has zero variance term -/
theorem variance_term_const (x : List ℝ) (c : ℝ) (hc : ∀ a ∈ x, a = c) :
    (x.length : ℝ) * (x.map fun a => a * a).sum - x.sum ^ 2 = 0 := by
  have h1 : x.sum = x.length • c := List.sum_eq_card_nsmul x c hc
  have h2 : (x.map fun a => a * a).sum = x.length • (c * c) := by
    have := List.sum_eq_card_nsmul (x.map fun a => a * a) (c * c) ?_
    · simpa using this
    · intro b hb
      obtain ⟨a, ha, rfl⟩ := List.mem_map.mp hb
      rw [hc a ha]
  rw [h1, h2, nsmul_eq_mul, nsmul_eq_mul]
  ring

/-- C10: The Pearson correlation returns 0 - not an error and not 1 - when
the series lengths differ, when there are fewer than 2 samples, or when the
denominator is 0; in particular either series being constant zeroes the
denominator, so the correlation of a constant series with itself is 0, not
1. -/
theorem pearson_degenerate_C10 (x y : List ℝ) (c : ℝ) :
    (x.length ≠ y.length → calculatePearsonCorrelation x y = 0) ∧
    (x.length < 2 → calculatePearsonCorrelation x y = 0) ∧
    (pearsonDenominator x y = 0 → calculatePearsonCorrelation x y = 0) ∧
    ((∀ a ∈ x, a = c) → x.length = y.length →
      calculatePearsonCorrelation x y = 0) ∧
    ((∀ a ∈ x, a = c) →
      calculatePearsonCorrelation x x = 0 ∧ calculatePearsonCorrelation x x ≠ 1) := by
  have hconst : ∀ z : List ℝ, (∀ a ∈ x, a = c) → x.length = z.length →
      calculatePearsonCorrelation x z = 0 := by
    intro z hc hlen
    unfold calculatePearsonCorrelation
    split_ifs with h1 h2
    · rfl
    · rfl
    · exfalso
      apply h2
      unfold pearsonDenominator
      rw [variance_term_const x c hc, zero_mul, Real.sqrt_zero]
  refine ⟨?_, ?_, ?_, fun hc hlen => hconst y hc hlen, fun hc => ?_⟩
  · intro h
    unfold calculatePearsonCorrelation
    rw [if_pos (Or.inl h)]
  · intro h
    unfold calculatePearsonCorrelation
    rw [if_pos (Or.inr h)]
  · intro h
    unfold calculatePearsonCorrelation
    split_ifs <;> first | rfl | exact absurd h (by assumption)
  · refine ⟨hconst x hc rfl, ?_⟩
    rw [hconst x hc rfl]
    norm_num

/-- Witness for C10: the constant series [1, 1] correlated with itself gives
0 (not 1), and a length mismatch or a short series also gives 0. -/
theorem pearson_degenerate_C10_witness :
    calculatePearsonCorrelation [(1 : ℝ), 1] [(1 : ℝ), 1] = 0 ∧
    calculatePearsonCorrelation [(1 : ℝ), 1] [(1 : ℝ), 1] ≠ 1 ∧
    calculatePearsonCorrelation [(1 : ℝ), 1] [(1 : ℝ)] = 0 ∧
    calculatePearsonCorrelation [(1 : ℝ)] [(1 : ℝ)] = 0 := by
  refine ⟨((pearson_degenerate_C10 [(1 : ℝ), 1] [(1 : ℝ), 1] 1).2.2.2.2
      (by intro a ha; simpa using ha)).1,
    ((pearson_degenerate_C10 [(1 : ℝ), 1] [(1 : ℝ), 1] 1).2.2.2.2
      (by intro a ha; simpa using ha)).2,
    (pearson_degenerate_C10 [(1 : ℝ), 1] [(1 : ℝ)] 1).1 (by norm_num),
    (pearson_degenerate_C10 [(1 : ℝ)] [(1 : ℝ)] 1).2.1 (by norm_num)⟩

/-- C8 counterexample: contrary to the unconditional claim
`correlation(X, X) == 1`, the code returns 0 for the constant series [1, 1]
correlated with itself (zero variance zeroes the denominator). -/
theorem pearson_self_counterexample_C8 :
    calculatePearsonCorrelation [(1 : ℝ), 1] [(1 : ℝ), 1] = 0 ∧
    ((0 : ℝ) ≠ 1) := by
  constructor
  · have hc : ∀ a ∈ [(1 : ℝ), 1], a = 1 := by
      intro a ha
      simpa using ha
    unfold calculatePearsonCorrelation
    split_ifs with h1 h2
    · rfl
    · rfl
    · exfalso
      apply h2
      unfold pearsonDenominator
      rw [variance_term_const [(1 : ℝ), 1] 1 hc, zero_mul, Real.sqrt_zero]
  · norm_num

/-- C8 (amended): for series of length at least 2 with positive variance
term, the Pearson correlation of a series with itself is 1 and with its
element-wise negation is -1; and with fewer than 10 history points (the
hook's minimum-sample guard) every pair is omitted: the result list is
empty, rather than containing default values. -/
theorem pearson_C8 (x : List ℝ) (hn : 2 ≤ x.length)
    (hv : 0 < (x.length : ℝ) * (x.map fun a => a * a).sum - x.sum ^ 2) :
    calculatePearsonCorrelation x x = 1 ∧
    calculatePearsonCorrelation x (x.map fun a => -a) = -1 ∧
    (∀ activeSymbol history now, history.length < 10 →
      crossAssetCorrelations activeSymbol history now = []) := by
  set v : ℝ := (x.length : ℝ) * (x.map fun a => a * a).sum - x.sum ^ 2 with hvdef
  have hsqrt : Real.sqrt (v * v) = v := Real.sqrt_mul_self (le_of_lt hv)
  refine ⟨?_, ?_, ?_⟩
  · have hden : pearsonDenominator x x = v := by
      unfold pearsonDenominator
      rw [← hvdef, hsqrt]
    have hnum : pearsonNumerator x x = v := by
      unfold pearsonNumerator
      rw [zipWith_mul_self, hvdef]
      ring
    unfold calculatePearsonCorrelation
    rw [if_neg (by push_neg; exact ⟨rfl, by omega⟩), hden, if_neg hv.ne', hnum]
    exact div_self hv.ne'
  · have hden : pearsonDenominator x (x.map fun a => -a) = v := by
      unfold pearsonDenominator
      rw [map_sq_negate, sum_map_negate]
      have : (-x.sum) ^ 2 = x.sum ^ 2 := by ring
      rw [this, ← hvdef, hsqrt]
    have hnum : pearsonNumerator x (x.map fun a => -a) = -v := by
      unfold pearsonNumerator
      rw [zipWith_mul_negate, sum_map_negate]
      have hneg : (x.map fun a => -(a * a)).sum = -((x.map fun a => a * a).sum) := by
        simpa [List.map_map, Function.comp] using sum_map_negate (x.map fun a => a * a)
      rw [hneg, hvdef]
      ring
    unfold calculatePearsonCorrelation
    rw [if_neg (by push_neg; exact ⟨(List.length_map x _).symm, by omega⟩), hden,
      if_neg hv.ne', hnum]
    rw [neg_div, div_self hv.ne']
  · intro activeSymbol history now h
    unfold crossAssetCorrelations
    rw [if_pos h]

/-- Witness for C8 at the concrete series [0, 1] (variance term 1 > 0) and an
empty history for the guard. -/
theorem pearson_C8_witness :
    calculatePearsonCorrelation [(0 : ℝ), 1] [(0 : ℝ), 1] = 1 ∧
    calculatePearsonCorrelation [(0 : ℝ), 1] ([(0 : ℝ), 1].map fun a => -a) = -1 ∧
    crossAssetCorrelations "BTC" [] 0 = [] := by
  have h := pearson_C8 [(0 : ℝ), 1] (by norm_num)
    (by norm_num)
  exact ⟨h.1, h.2.1, h.2.2 "BTC" [] 0 (by norm_num)⟩

/-- the slice is a drop of the stale front of the trail -/
theorem trailSlice_eq_drop (l : List TrailPoint) :
    trailSlice l = l.drop (l.length - trailCapacity) := by
  unfold trailSlice
  split_ifs with h
  · rfl
  · rw [Nat.sub_eq_zero_of_le (le_of_not_lt h), List.drop_zero]

/-- recomputing alphas does not change the point data -/
theorem map_pointData_reAlpha (l : List TrailPoint) (g : ℕ × TrailPoint → ℚ) :
    ((l.enum.map fun iq => { iq.2 with alpha := g iq }).map pointData) = l.map pointData := by
  rw [List.map_map]
  have h1 : (pointData ∘ fun iq : ℕ × TrailPoint => { iq.2 with alpha := g iq }) =
      (pointData ∘ Prod.snd) := by
    funext iq
    rfl
  rw [h1, ← List.map_map, List.enum_map_snd]

/-- the data of a pushed trail: append then keep the most recent 300 -/
theorem trailPush_data (buf : List TrailPoint) (p : TrailPoint) :
    (trailPush buf p).map pointData =
      ((buf ++ [p]).map pointData).drop ((buf.length + 1) - trailCapacity) := by
  unfold trailPush
  rw [map_pointData_reAlpha, trailSlice_eq_drop, List.map_drop]
  congr 2
  simp

/-- length after a push: one more, capped at the capacity -/
theorem trailPush_length (buf : List TrailPoint) (p : TrailPoint) :
    (trailPush buf p).length = min (buf.length + 1) trailCapacity := by
  have h := congrArg List.length (trailPush_data buf p)
  simp only [List.length_map, List.length_drop, List.length_append, List.length_cons,
    List.length_nil] at h
  omega

/-- alpha after a push: `(i + 1) / length` at every retained index -/
theorem trailPush_alpha (buf : List TrailPoint) (p : TrailPoint)
    (i : ℕ) (h : i < (trailPush buf p).length) :
    ((trailPush buf p).get ⟨i, h⟩).alpha =
      ((i : ℚ) + 1) / ((trailPush buf p).length : ℚ) := by
  unfold trailPush at h ⊢
  rw [List.get_eq_getElem, List.getElem_map, List.getElem_enum]
  simp

/-- C2 helper: the data retained after any sequence of pushes from the empty
trail is the most recent 300 of everything pushed. -/
theorem trailFold_data (ps : List TrailPoint) :
    (ps.foldl trailPush []).map pointData =
      (ps.map pointData).drop (ps.length - trailCapacity) := by
  induction ps using List.reverseRecOn with
  | nil => simp
  | append_singleton qs q ih =>
    rw [List.foldl_append, List.foldl_cons, List.foldl_nil, trailPush_data]
    have hBlen : (qs.foldl trailPush []).length = qs.length - (qs.length - trailCapacity) := by
      have h := congrArg List.length ih
      simpa using h
    rw [List.map_append, ih, hBlen]
    have hC : trailCapacity = 300 := rfl
    have hP : (qs.map pointData).length = qs.length := by simp
    simp only [List.map_cons, List.map_nil, List.map_append, List.length_append,
      List.length_cons, List.length_nil]
    rcases le_or_lt qs.length trailCapacity with hle | hlt
    · have h0 : qs.length - trailCapacity = 0 := by omega
      rw [h0, List.drop_zero]
      congr 1
    · have h1 : qs.length - (qs.length - trailCapacity) + 1 - trailCapacity = 1 := by omega
      rw [h1]
      have hlen1 : 1 ≤ ((qs.map pointData).drop (qs.length - trailCapacity)).length := by
        rw [List.length_drop, hP]
        omega
      have hlen2 : qs.length + 1 - trailCapacity ≤ (qs.map pointData).length := by
        rw [hP]
        omega
      rw [List.drop_append_of_le_length hlen1, List.drop_append_of_le_length hlen2,
        List.drop_drop]
      have h2 : qs.length - trailCapacity + 1 = qs.length + 1 - trailCapacity := by
        omega
      rw [h2]

/-- C3: One step of the regime state machine first decrements the dwell
counter; if the counter is still positive the regime is returned unchanged
with the decremented counter; otherwise the next regime is the first state of
the current row whose cumulative transition probability exceeds `u` (last
state absorbing residual error, per `specTransition`) and the dwell counter is
reset to `50 + ⌊rand2·100⌋`, which lies in `[50, 149]` for `rand2 ∈ [0,1)`. -/
theorem regimeStep_spec (c : Regime) (d : ℤ) (u rand2 : ℝ) :
    (0 < d - 1 → regimeStep c d u rand2 = (c, d - 1)) ∧
    (d - 1 ≤ 0 → 0 ≤ u → u < 1 →
      regimeStep c d u rand2 = (specTransition c u, 50 + ⌊rand2 * 100⌋)) ∧
    (d - 1 ≤ 0 → 0 ≤ rand2 → rand2 < 1 →
      50 ≤ (regimeStep c d u rand2).2 ∧ (regimeStep c d u rand2).2 ≤ 149) := by
  refine ⟨fun hd => ?_, fun hd h0 h1 => ?_, fun hd h0 h1 => ?_⟩
  · simp only [regimeStep]
    rw [if_neg (by omega)]
  · simp only [regimeStep, if_pos hd]
    have : transitionRegime c u = specTransition c u := by
      cases c <;>
        simp only [transitionRegime, specTransition, regimeTransitions, cumulativeWalk,
          specWalk] <;>
        norm_num <;>
        split_ifs <;>
        first
          | rfl
          | (exfalso; linarith)
    rw [this]
  · simp only [regimeStep, if_pos hd]
    have hf0 : (0 : ℤ) ≤ ⌊rand2 * 100⌋ := by
      apply Int.floor_nonneg.mpr
      nlinarith
    have hf1 : ⌊rand2 * 100⌋ < 100 := by
      apply Int.floor_lt.mpr
      push_cast
      nlinarith
    omega

/-- Witness for C3 at concrete inputs. -/
theorem regimeStep_spec_witness :
    regimeStep calm 5 (1/2) (1/4) = (calm, 4) ∧
    regimeStep calm 1 (1/2) (1/4) = (specTransition calm (1/2), 50 + ⌊(1/4 : ℝ) * 100⌋) ∧
    (50 ≤ (regimeStep calm 1 (1/2) (1/4)).2 ∧ (regimeStep calm 1 (1/2) (1/4)).2 ≤ 149) := by
  refine ⟨(regimeStep_spec calm 5 (1/2) (1/4)).1 (by norm_num),
    (regimeStep_spec calm 1 (1/2) (1/4)).2.1 (by norm_num) (by norm_num) (by norm_num),
    (regimeStep_spec calm 1 (1/2) (1/4)).2.2 (by norm_num) (by norm_num) (by norm_num)⟩

/-- C7: validated construction of the regime machine (modelled from the spec,
the source hard-codes the table): construction succeeds exactly when every row
sum lies within `[1-ε, 1+ε]`, otherwise it fails at construction time with a
configuration error; and the table hard-coded in `mockStream.ts` has every row
summing to exactly 1, so it is accepted for every nonnegative ε. -/
theorem mkRegimeStateMachine_spec (table : Regime → List (Regime × ℚ)) (eps : ℚ) :
    (mkRegimeStateMachine table eps = Except.ok table ↔
      ∀ r ∈ regimeOrder, 1 - eps ≤ rowSum table r ∧ rowSum table r ≤ 1 + eps) ∧
    ((¬ ∀ r ∈ regimeOrder, 1 - eps ≤ rowSum table r ∧ rowSum table r ≤ 1 + eps) →
      mkRegimeStateMachine table eps =
        Except.error "transition matrix is not row-stochastic") ∧
    (∀ r : Regime, rowSum regimeTransitions r = 1) ∧
    (0 ≤ eps → mkRegimeStateMachine regimeTransitions eps = Except.ok regimeTransitions) := by
  have hall : ∀ table' : Regime → List (Regime × ℚ),
      rowStochastic table' eps = true ↔
      ∀ r ∈ regimeOrder, 1 - eps ≤ rowSum table' r ∧ rowSum table' r ≤ 1 + eps := by
    intro table'
    simp [rowStochastic, List.all_eq_true]
  have hrows : ∀ r : Regime, rowSum regimeTransitions r = 1 := by
    intro r
    cases r <;> norm_num [rowSum, regimeTransitions]
  refine ⟨?_, ?_, hrows, ?_⟩
  · constructor
    · intro h
      by_contra hc
      have : rowStochastic table eps = false := by
        cases hb : rowStochastic table eps with
        | true => exact absurd ((hall table).mp hb) hc
        | false => rfl
      simp [mkRegimeStateMachine, this] at h
    · intro h
      simp [mkRegimeStateMachine, (hall table).mpr h]
  · intro h
    have : rowStochastic table eps = false := by
      cases hb : rowStochastic table eps with
      | true => exact absurd ((hall table).mp hb) h
      | false => rfl
    simp [mkRegimeStateMachine, this]
  · intro heps
    have : rowStochastic regimeTransitions eps = true := by
      refine (hall regimeTransitions).mpr ?_
      intro r _
      rw [hrows r]
      constructor <;> linarith
    simp [mkRegimeStateMachine, this]

/-- Witness for C7: with ε = 1/1000, the hard-coded table is accepted, and a
table whose `calm` row sums to 2 is rejected at construction. -/
theorem mkRegimeStateMachine_spec_witness :
    mkRegimeStateMachine regimeTransitions (1/1000) = Except.ok regimeTransitions ∧
    mkRegimeStateMachine (fun _ => [(calm, 2)]) (1/1000) =
      Except.error "transition matrix is not row-stochastic" := by
  constructor
  · exact (mkRegimeStateMachine_spec regimeTransitions (1/1000)).2.2.2 (by norm_num)
  · refine (mkRegimeStateMachine_spec (fun _ => [(calm, 2)]) (1/1000)).2.1 ?_
    intro h
    have := h calm (by simp [regimeOrder])
    norm_num [rowSum] at this

/-- length of the trail after any sequence of pushes -/
theorem trailFold_length (ps : List TrailPoint) :
    (ps.foldl trailPush []).length = min ps.length trailCapacity := by
  have h := congrArg List.length (trailFold_data ps)
  simp only [List.length_map, List.length_drop] at h
  omega

/-- C2: For every sequence of pushes into the capacity-300 trail buffer:
the length never exceeds 300 (it is `min pushed 300`); the retained data is
exactly the most recently pushed 300 points (FIFO eviction of the oldest);
every retained element's alpha is `(index+1)/length`, hence alphas are
non-decreasing with index and the most recent point has alpha 1; and after
pushing 301 points with a head whose timestamp differs from every later
point's, the length is 300 and the first-pushed point is absent. -/
theorem trailBuffer_C2 (ps : List TrailPoint) :
    ((ps.foldl trailPush []).length = min ps.length trailCapacity) ∧
    ((ps.foldl trailPush []).map pointData =
      (ps.map pointData).drop (ps.length - trailCapacity)) ∧
    (∀ i (h : i < (ps.foldl trailPush []).length),
      ((ps.foldl trailPush []).get ⟨i, h⟩).alpha =
        ((i : ℚ) + 1) / ((ps.foldl trailPush []).length : ℚ)) ∧
    (∀ i j (hi : i < (ps.foldl trailPush []).length)
      (hj : j < (ps.foldl trailPush []).length), i ≤ j →
      ((ps.foldl trailPush []).get ⟨i, hi⟩).alpha ≤
        ((ps.foldl trailPush []).get ⟨j, hj⟩).alpha) ∧
    (∀ h : ps.foldl trailPush [] ≠ [],
      ((ps.foldl trailPush []).getLast h).alpha = 1) ∧
    (∀ p0 qs, ps = p0 :: qs → ps.length = 301 →
      (∀ q ∈ qs, q.timestamp ≠ p0.timestamp) →
      (ps.foldl trailPush []).length = 300 ∧
        pointData p0 ∉ (ps.foldl trailPush []).map pointData) := by
  have halpha : ∀ i (h : i < (ps.foldl trailPush []).length),
      ((ps.foldl trailPush []).get ⟨i, h⟩).alpha =
        ((i : ℚ) + 1) / ((ps.foldl trailPush []).length : ℚ) := by
    intro i h
    rcases List.eq_nil_or_concat' ps with hnil | ⟨qs, q, rfl⟩
    · subst hnil
      simp at h
    · have hfold : (qs ++ [q]).foldl trailPush [] = trailPush (qs.foldl trailPush []) q := by
        rw [List.foldl_append, List.foldl_cons, List.foldl_nil]
      revert h
      rw [hfold]
      intro h
      exact trailPush_alpha _ _ i h
  refine ⟨trailFold_length ps, trailFold_data ps, halpha, ?_, ?_, ?_⟩
  · intro i j hi hj hij
    rw [halpha i hi, halpha j hj]
    have hL : (0 : ℚ) < ((ps.foldl trailPush []).length : ℚ) := by
      exact_mod_cast lt_of_le_of_lt (Nat.zero_le i) hi
    exact (div_le_div_right hL).mpr (by exact_mod_cast Nat.succ_le_succ hij)
  · intro h
    have hpos : 0 < (ps.foldl trailPush []).length := List.length_pos.mpr h
    rw [List.getLast_eq_get]
    rw [halpha _ (by omega)]
    have hc : (((ps.foldl trailPush []).length - 1 : ℕ) : ℚ) =
        ((ps.foldl trailPush []).length : ℚ) - 1 := by
      push_cast [Nat.cast_sub hpos]
      ring
    rw [hc]
    have hne : ((ps.foldl trailPush []).length : ℚ) ≠ 0 := by
      exact_mod_cast Nat.pos_iff_ne_zero.mp hpos
    field_simp
  · intro p0 qs hcons h301 hts
    have hC : trailCapacity = 300 := rfl
    constructor
    · rw [trailFold_length ps, h301, hC]
      omega
    · rw [trailFold_data ps]
      have hidx : ps.length - trailCapacity = 1 := by
        rw [h301, hC]
      rw [hidx, hcons]
      simp only [List.map_cons, List.drop_one, List.tail_cons]
      intro hmem
      obtain ⟨q, hq, heq⟩ := List.mem_map.mp hmem
      have : q.timestamp = p0.timestamp := congrArg (fun t => t.2.2.1) heq
      exact hts q hq this

/-- Witness for C2 (Scenario D): pushing 301 concrete points with distinct
timestamps leaves length 300 and the first-pushed point absent. -/
theorem trailBuffer_C2_witness :
    (trailDemo.foldl trailPush []).length = 300 ∧
      pointData (trailDemoPoint 0) ∉ (trailDemo.foldl trailPush []).map pointData := by
  refine (trailBuffer_C2 trailDemo).2.2.2.2.2 (trailDemoPoint 0)
    ((List.range 300).map fun k => trailDemoPoint (k + 1)) rfl ?_ ?_
  · simp [trailDemo]
  · intro q hq
    simp only [List.mem_map, List.mem_range] at hq
    obtain ⟨k, _, rfl⟩ := hq
    simp only [trailDemoPoint, trailDemo]
    omega

/-- C6: for every ingress payload whose raw attribution weights have positive
sum, the adapter emits each component divided by the sum of the three raw
weights, and the emitted attribution sums to 1. -/
theorem adapt_attribution_C6 (b : BackendResponse)
    (hpos : 0 < b.attributionSocial + b.attributionOnchain + b.attributionMicrostructure) :
    (adaptBackendResponse b).attribution.social =
      b.attributionSocial /
        (b.attributionSocial + b.attributionOnchain + b.attributionMicrostructure) ∧
    (adaptBackendResponse b).attribution.onchain =
      b.attributionOnchain /
        (b.attributionSocial + b.attributionOnchain + b.attributionMicrostructure) ∧
    (adaptBackendResponse b).attribution.microstructure =
      b.attributionMicrostructure /
        (b.attributionSocial + b.attributionOnchain + b.attributionMicrostructure) ∧
    (adaptBackendResponse b).attribution.social + (adaptBackendResponse b).attribution.onchain +
      (adaptBackendResponse b).attribution.microstructure = 1 := by
  have htot : (if b.attributionSocial + b.attributionOnchain + b.attributionMicrostructure = 0
      then (1 : ℝ)
      else b.attributionSocial + b.attributionOnchain + b.attributionMicrostructure) =
      b.attributionSocial + b.attributionOnchain + b.attributionMicrostructure := by
    rw [if_neg hpos.ne']
  refine ⟨?_, ?_, ?_, ?_⟩ <;>
    simp only [adaptBackendResponse, htot]
  rw [div_add_div_same, div_add_div_same, div_self hpos.ne']

/-- Witness for C6 (Scenario B): ingress attribution {2, 1, 1} is emitted as
{0.5, 0.25, 0.25}, summing to 1. -/
theorem adapt_attribution_C6_witness :
    (adaptBackendResponse demoBackend).attribution.social = 0.5 ∧
    (adaptBackendResponse demoBackend).attribution.onchain = 0.25 ∧
    (adaptBackendResponse demoBackend).attribution.microstructure = 0.25 ∧
    (adaptBackendResponse demoBackend).attribution.social +
      (adaptBackendResponse demoBackend).attribution.onchain +
      (adaptBackendResponse demoBackend).attribution.microstructure = 1 := by
  obtain ⟨h1, h2, h3, h4⟩ := adapt_attribution_C6 demoBackend (by norm_num [demoBackend])
  refine ⟨?_, ?_, ?_, h4⟩
  · rw [h1]
    norm_num [demoBackend]
  · rw [h2]
    norm_num [demoBackend]
  · rw [h3]
    norm_num [demoBackend]

/-- a payload's regime string only enters the adapter through the lookup -/
theorem adapt_regime_irrelevant (b : BackendResponse) (s t : String)
    (h : lookupRegime s = lookupRegime t) :
    adaptBackendResponse { b with regime := s } = adaptBackendResponse { b with regime := t } := by
  unfold adaptBackendResponse
  simp only [h]

/-- C9 counterexample: the claim's "recorded fidelity-loss flag" does not
exist in the code - adapting a payload with the unrecognized regime label
"SHRUGGING" yields a reading identical to adapting the same payload labelled
"calm", so nothing in the output records that the label was unrecognized. -/
theorem adapt_no_fidelity_flag_C9 :
    adaptBackendResponse { demoBackend with regime := "SHRUGGING" } =
      adaptBackendResponse demoBackend ∧
    (adaptBackendResponse { demoBackend with regime := "SHRUGGING" }).regime = Regime.calm := by
  constructor
  · exact (adapt_regime_irrelevant demoBackend "SHRUGGING" "calm" (by decide)).trans
      (congrArg adaptBackendResponse rfl)
  · show lookupRegime "SHRUGGING" = Regime.calm
    decide

/-- C9 (amended): the free-form regime label is mapped through the explicit
lookup table (each of the four known labels, in any casing that lowercases to
it, maps to its enum value); an unrecognized label maps to calm; and the
adapter is a total function whose output regime is always one of the four
enum values (no error path) - but no fidelity-loss flag is recorded. -/
theorem adapt_regime_C9 (b : BackendResponse) :
    (lookupRegime "calm" = Regime.calm ∧ lookupRegime "trending" = Regime.trending ∧
      lookupRegime "volatile" = Regime.volatile ∧
      lookupRegime "liquidation" = Regime.liquidation ∧
      lookupRegime "CALM" = Regime.calm) ∧
    (regimeMap.lookup (lowerString b.regime) = none →
      (adaptBackendResponse b).regime = Regime.calm) ∧
    (adaptBackendResponse b).regime ∈ regimeOrder := by
  refine ⟨by decide, ?_, ?_⟩
  · intro h
    show lookupRegime b.regime = Regime.calm
    unfold lookupRegime
    rw [h]
    rfl
  · show lookupRegime b.regime ∈ regimeOrder
    cases lookupRegime b.regime <;> simp [regimeOrder]

/-- Witness for C9 at the concrete unknown label "SHRUGGING". -/
theorem adapt_regime_C9_witness :
    (adaptBackendResponse { demoBackend with regime := "SHRUGGING" }).regime = Regime.calm ∧
    (adaptBackendResponse { demoBackend with regime := "SHRUGGING" }).regime ∈ regimeOrder := by
  have h := adapt_regime_C9 { demoBackend with regime := "SHRUGGING" }
  exact ⟨h.2.1 (by decide), h.2.2⟩

/-- C1: every reading produced by the per-tick generator has score in [-1,1]
(clamped at creation), confidence in [0,1] (clamped to [0.1,1] at creation),
and attribution components summing to exactly 1, provided the three simplex
noise samples driving the raw attribution weights are at least -1 with one
strictly above -1 (so the raw total is positive; simplex noise ranges in
[-1,1]). -/
theorem generateReading_C1 (nf : NoiseFns) (rand : ℕ → ℝ) (now : ℤ) (st : GenState) (i : ℕ)
    (hS : -1 ≤ nf.socialNoise ((st.simulationTime + 0.01) * 0.3) 100)
    (hO : -1 ≤ nf.onchainNoise ((st.simulationTime + 0.01) * 0.15) 200)
    (hM : -1 ≤ nf.microNoise ((st.simulationTime + 0.01) * 0.8) 300)
    (hne : -1 < nf.socialNoise ((st.simulationTime + 0.01) * 0.3) 100 ∨
      -1 < nf.onchainNoise ((st.simulationTime + 0.01) * 0.15) 200 ∨
      -1 < nf.microNoise ((st.simulationTime + 0.01) * 0.8) 300) :
    (-1 ≤ (generateReading nf rand now st i).1.score ∧
      (generateReading nf rand now st i).1.score ≤ 1) ∧
    (0 ≤ (generateReading nf rand now st i).1.confidence ∧
      (generateReading nf rand now st i).1.confidence ≤ 1) ∧
    (generateReading nf rand now st i).1.attribution.social +
      (generateReading nf rand now st i).1.attribution.onchain +
      (generateReading nf rand now st i).1.attribution.microstructure = 1 := by
  have hscore : (generateReading nf rand now st i).1.score =
      genScore nf st.previousScore (st.simulationTime + 0.01)
        (regimeStep st.currentRegime st.regimeStability (rand i) (rand (i + 1))).1 := rfl
  have hconf : (generateReading nf rand now st i).1.confidence =
      genConfidence nf (st.simulationTime + 0.01)
        (regimeStep st.currentRegime st.regimeStability (rand i) (rand (i + 1))).1 := rfl
  have hattr : (generateReading nf rand now st i).1.attribution =
      genAttribution nf (st.simulationTime + 0.01) := rfl
  refine ⟨?_, ?_, ?_⟩
  · rw [hscore]
    unfold genScore clampR
    constructor
    · exact le_max_left _ _
    · exact max_le (by norm_num) (min_le_left _ _)
  · rw [hconf]
    unfold genConfidence
    constructor
    · exact le_trans (by norm_num) (le_max_left (0.1 : ℝ) _)
    · exact max_le (by norm_num) (min_le_left _ _)
  · rw [hattr]
    unfold genAttribution
    have hT : 0 < attributionTotal nf (st.simulationTime + 0.01) := by
      unfold attributionTotal rawSocialWeight rawOnchainWeight rawMicroWeight
      rcases hne with h | h | h <;> linarith
    have hT' : rawSocialWeight nf (st.simulationTime + 0.01) +
        rawOnchainWeight nf (st.simulationTime + 0.01) +
        rawMicroWeight nf (st.simulationTime + 0.01) ≠ 0 := by
      unfold attributionTotal at hT
      exact hT.ne'
    simp only [genAttribution, attributionTotal]
    rw [div_add_div_same, div_add_div_same, div_self hT']

/-- Witness for C1 at the all-zero noise configuration and the initial
state. -/
theorem generateReading_C1_witness :
    (-1 ≤ (generateReading zeroNoise (fun _ => 0) 0 initialGenState 0).1.score ∧
      (generateReading zeroNoise (fun _ => 0) 0 initialGenState 0).1.score ≤ 1) ∧
    (0 ≤ (generateReading zeroNoise (fun _ => 0) 0 initialGenState 0).1.confidence ∧
      (generateReading zeroNoise (fun _ => 0) 0 initialGenState 0).1.confidence ≤ 1) ∧
    (generateReading zeroNoise (fun _ => 0) 0 initialGenState 0).1.attribution.social +
      (generateReading zeroNoise (fun _ => 0) 0 initialGenState 0).1.attribution.onchain +
      (generateReading zeroNoise (fun _ => 0) 0 initialGenState 0).1.attribution.microstructure
        = 1 :=
  generateReading_C1 zeroNoise (fun _ => 0) 0 initialGenState 0
    (by norm_num [zeroNoise]) (by norm_num [zeroNoise]) (by norm_num [zeroNoise])
    (Or.inl (by norm_num [zeroNoise]))

/-- C4 counterexample: the reading sequence is NOT determined by the RNG and
the configuration alone - the readings embed `Date.now()`.  Two runs with
identical noise functions, identical random stream, identical initial state
and cursor, differing only in the wall clock, produce different sequences
(the timestamp field differs). -/
theorem runGenerator_clock_C4_counterexample :
    runGenerator zeroNoise (fun _ => 0) (fun _ => 0) initialGenState 0 1 ≠
      runGenerator zeroNoise (fun _ => 0) (fun _ => 1000) initialGenState 0 1 := by
  intro h
  have e1 : runGenerator zeroNoise (fun _ => 0) (fun _ => 0) initialGenState 0 1 =
      [(generateReading zeroNoise (fun _ => 0) 0 initialGenState 0).1] := rfl
  have e2 : runGenerator zeroNoise (fun _ => 0) (fun _ => 1000) initialGenState 0 1 =
      [(generateReading zeroNoise (fun _ => 0) 1000 initialGenState 0).1] := rfl
  rw [e1, e2] at h
  have h3 : (generateReading zeroNoise (fun _ => 0) 0 initialGenState 0).1 =
      (generateReading zeroNoise (fun _ => 0) 1000 initialGenState 0).1 := by
    injection h
  have h4 := congrArg SentimentReading.timestamp h3
  have ht1 : (generateReading zeroNoise (fun _ => 0) 0 initialGenState 0).1.timestamp = 0 := rfl
  have ht2 : (generateReading zeroNoise (fun _ => 0) 1000 initialGenState 0).1.timestamp =
      1000 := rfl
  rw [ht1, ht2] at h4
  exact absurd h4 (by norm_num)

/-- C4 (amended): the generator is deterministic in ALL of its inputs: two
runs with identical noise functions (the seeded simplex instances), identical
random stream, identical clock stream, identical initial state and identical
cursor produce identical reading sequences of any length.  (Identical seed
and configuration alone are not enough: the clock enters the timestamp and
narrative-id fields, as the counterexample shows.) -/
theorem runGenerator_deterministic_C4 (nf nf' : NoiseFns) (rand rand' : ℕ → ℝ)
    (clock clock' : ℕ → ℤ) (st st' : GenState) (i i' n : ℕ)
    (h1 : nf = nf') (h2 : rand = rand') (h3 : clock = clock') (h4 : st = st') (h5 : i = i') :
    runGenerator nf rand clock st i n = runGenerator nf' rand' clock' st' i' n := by
  subst h1
  subst h2
  subst h3
  subst h4
  subst h5
  rfl

/-- Witness for C4 at concrete equal inputs over 5 ticks. -/
theorem runGenerator_deterministic_C4_witness :
    runGenerator zeroNoise (fun _ => 0) (fun _ => 0) initialGenState 0 5 =
      runGenerator zeroNoise (fun _ => 0) (fun _ => 0) initialGenState 0 5 :=
  runGenerator_deterministic_C4 zeroNoise zeroNoise (fun _ => 0) (fun _ => 0)
    (fun _ => 0) (fun _ => 0) initialGenState initialGenState 0 0 5 rfl rfl rfl rfl rfl

end SentimentDNA
